import Mathlib

/-!
Verification development for the PDF annotation engine in
`dummy_comments_scenario.py`: anchor resolution, collision-aware score
placement, comment popups, and the per-criterion orchestration loop.

Python strings are modelled as `String`, float coordinates as `ℤ`
(every coordinate operation the module performs is exact on integer
inputs, so the integers are an exact float model), sets as `Finset`,
and the
PyMuPDF page as a record exposing the two query surfaces the module
uses: `search_for` (literal phrase search, supplied as page data) and
`get_text("words")` (a word/bounding-box list). Drawing calls are
recorded as a command list instead of mutating pages.
-/

/-- Characters Python treats as whitespace for `str.split()` / `\s`. -/
def pyIsSpace (c : Char) : Bool :=
  c = ' ' || c = '\t' || c = '\n' || c = '\r' || c = '\u000B' || c = '\u000C'

/-- Python `str.strip()`. -/
def pyStrip (s : String) : String :=
  String.mk (((s.toList.dropWhile pyIsSpace).reverse.dropWhile pyIsSpace).reverse)

/-- Python `str.strip(chars)`: drop any of `cs` from both ends. -/
def pyStripChars (cs : List Char) (s : String) : String :=
  String.mk (((s.toList.dropWhile (· ∈ cs)).reverse.dropWhile (· ∈ cs)).reverse)

/-- Accumulator-based whitespace splitter: Python `str.split()`
(split on whitespace runs, dropping empty pieces). -/
def splitWSAux : List Char → List Char → List String
  | acc, [] => if acc.isEmpty then [] else [String.mk acc.reverse]
  | acc, c :: cs =>
    if pyIsSpace c then
      if acc.isEmpty then splitWSAux [] cs
      else String.mk acc.reverse :: splitWSAux [] cs
    else splitWSAux (c :: acc) cs

def pySplitWS (s : String) : List String := splitWSAux [] s.toList

/-- `re.sub(r'\s+', ' ', text)`: collapse each whitespace run to one space.
The flag records whether the previous character was whitespace. -/
def collapseWSAux : Bool → List Char → List Char
  | _, [] => []
  | prev, c :: rest =>
    if pyIsSpace c then
      if prev then collapseWSAux true rest else ' ' :: collapseWSAux true rest
    else c :: collapseWSAux false rest

def collapseWS (s : String) : String := String.mk (collapseWSAux false s.toList)

def pyLower (s : String) : String := String.mk (s.toList.map Char.toLower)

def pyUpper (s : String) : String := String.mk (s.toList.map Char.toUpper)

/-- Boolean list-prefix test. -/
def listIsPre : List Char → List Char → Bool
  | [], _ => true
  | _ :: _, [] => false
  | a :: as, b :: bs => a == b && listIsPre as bs

/-- Boolean contiguous-substring test (`needle in hay` on Python strings). -/
def substrIn : List Char → List Char → Bool
  | needle, [] => needle.isEmpty
  | needle, c :: rest => listIsPre needle (c :: rest) || substrIn needle rest

def strContainsSub (hay needle : String) : Bool := substrIn needle.toList hay.toList

/-- Non-overlapping left-to-right replacement of every occurrence of
`pattern` (Python `re.sub` with a literal alternative / `str.replace`).
Fueled by the input length; `pattern` is nonempty at every call site. -/
def replaceAllAux (pattern rep : List Char) : ℕ → List Char → List Char
  | 0, l => l
  | _ + 1, [] => []
  | fuel + 1, c :: cs =>
    if listIsPre pattern (c :: cs) then
      rep ++ replaceAllAux pattern rep fuel (List.drop pattern.length (c :: cs))
    else c :: replaceAllAux pattern rep fuel cs

def pyReplace (s pattern rep : String) : String :=
  String.mk (replaceAllAux pattern.toList rep.toList s.toList.length s.toList)

/-- Python 3 `round` applied to a y-coordinate. Coordinates are modelled
as integers (every coordinate operation the module performs — the fixed
offsets, the clamps, the stagger step `6 * 1.5 = 9` and the fallback
step `6 * 3 = 18` — maps integers to integers exactly in float
arithmetic), so `round` is the identity on them. -/
def pyRound (q : ℤ) : ℤ := q

/-- Axis-aligned rectangle (`fitz.Rect`), top-left origin,
y increasing downward. -/
structure Rect where
  x0 : ℤ
  y0 : ℤ
  x1 : ℤ
  y1 : ℤ
deriving DecidableEq

/-- `fitz.Rect.__or__`: smallest rectangle containing both. -/
def Rect.union (a b : Rect) : Rect :=
  ⟨min a.x0 b.x0, min a.y0 b.y0, max a.x1 b.x1, max a.y1 b.y1⟩

def Rect.containsRect (outer inner : Rect) : Bool :=
  decide (outer.x0 ≤ inner.x0 ∧ outer.y0 ≤ inner.y0 ∧
    inner.x1 ≤ outer.x1 ∧ inner.y1 ≤ outer.y1)

/-- One PDF page as the annotation module consumes it: the literal
phrase-search results (`page.search_for`) are page data, and
`page.get_text("words")` is the (text, box) list in reading order. -/
structure Page where
  width : ℤ
  height : ℤ
  searchFor : String → List Rect
  words : List (String × Rect)

/-- `page.search_for(text, clip=area)`: hits restricted to the clip area. -/
def Page.searchForClip (page : Page) (text : String) (clip : Rect) : List Rect :=
  (page.searchFor text).filter (fun r => clip.containsRect r)

/-- A document is a 0-indexed family of pages (`doc[page_num - 1]`). -/
def Doc : Type := ℕ → Page

/-- Visual primitives the module draws (`draw_line`, `insert_text`,
`add_text_annot`), recorded instead of mutating the page. -/
inductive DrawCmd where
  | line (pageNum : ℕ) (p1 p2 : ℤ × ℤ)
  | text (pageNum : ℕ) (pos : ℤ × ℤ) (content : String) (fontsize : ℤ)
  | note (pageNum : ℕ) (pos : ℤ × ℤ) (content : String)
deriving DecidableEq

-- ==================== CONFIG (dummy_comments_scenario.py lines 13-30) ====================

def mainScoreOffsetX : ℤ := 20
def mainScoreOffsetY : ℤ := -12
def mainScoreFontsize : ℤ := 16
def criterionScoreOffsetX : ℤ := -18
def criterionScoreOffsetY : ℤ := 3
def criterionScoreFontsize : ℤ := 11
def commentOffset : ℤ := 35
def yTolerance : ℤ := 6
def maxAnchorWords : ℕ := 6

-- ==================== clean_anchor_text (lines 35-56) ====================

/-- `re.sub(r'\[\.\.\.\]|\\n|\\\n', ' ', text)`: the three literal
alternatives are pairwise non-overlapping and are replaced by a space,
so sequential replacement equals the one-pass regex substitution. -/
def subArtifacts (s : String) : String :=
  pyReplace (pyReplace (pyReplace s "[...]" " ") "\\n" " ") "\\\n" " "

/-- The word list `clean_anchor_text` computes (lines 39-41). -/
def anchorWords (text : String) : List String :=
  pySplitWS (collapseWS (pyStrip (subArtifacts text)))

/-- `re.match(r'^\d|\d.*\d|FV|NCI|OCI', w)`: anchored at the start, the
first two alternatives both require a leading digit. -/
def isGoodAnchorWord (w : String) : Bool :=
  match w.toList with
  | [] => false
  | c :: _ =>
    c.isDigit || listIsPre "FV".toList w.toList ||
      listIsPre "NCI".toList w.toList || listIsPre "OCI".toList w.toList

def countCharIn (c : Char) (s : String) : ℕ := (s.toList.filter (· == c)).length

/-- Anchor-quality score of a candidate chunk (lines 49-53). -/
def chunkScore (chunk : String) : ℕ :=
  countCharIn ',' chunk + countCharIn '£' chunk + countCharIn '$' chunk +
    countCharIn '%' chunk + countCharIn '×' chunk +
  ((pySplitWS chunk).filter isGoodAnchorWord).length +
  ((pySplitWS chunk).filter
    (fun w => (w.toList.headD ' ').isUpper && decide (w.length > 2))).length

/-- `clean_anchor_text(text, max_words=6)` (lines 35-56). The window
count uses `Int.toNat` because `range(len(words) - max_words + 1)` is
empty when the difference is negative. -/
def cleanAnchorText (text : String) (maxWords : ℕ) : Option String :=
  if text = "" then none
  else
    let words := anchorWords text
    if words.length < 2 then none
    else
      let numWindows := ((words.length : ℤ) - (maxWords : ℤ) + 1).toNat
      let best := (List.range numWindows).foldl
        (fun (acc : Option String × ℕ) i =>
          let chunk := String.intercalate " " ((words.drop i).take maxWords)
          let score := chunkScore chunk
          if score > acc.2 then (some chunk, score) else acc)
        (none, 0)
      match best.1 with
      | some bestChunk =>
        if bestChunk = "" then some (String.intercalate " " (words.take maxWords))
        else some bestChunk
      | none => some (String.intercalate " " (words.take maxWords))

-- ==================== find_text_rects_partial (lines 59-85) ====================

/-- `find_text_rects_partial(page, search_text, full_match)`: word-level
fuzzy matching (bidirectional case-insensitive containment), deduplicated
by rectangle coordinates, in page word order. -/
def findTextRectsFuzzy (page : Page) (searchText : String) (fullMatch : Bool) : List Rect :=
  if searchText = "" then []
  else if fullMatch then page.searchFor searchText
  else
    let searchWords := pySplitWS searchText
    page.words.foldl
      (fun acc w =>
        let wordLower := pyLower w.1
        if searchWords.any (fun sw =>
            substrIn (pyLower sw).toList wordLower.toList ||
              substrIn wordLower.toList (pyLower sw).toList) then
          if w.2 ∈ acc then acc else acc ++ [w.2]
        else acc)
      []

-- ==================== extract_number_from_text (lines 145-154) ====================

/-- Greedy match of `[\d,]+(?:\.\d+)?` at the head of the list. -/
def numTok (cs : List Char) : Option (List Char × List Char) :=
  let run1 := cs.takeWhile (fun c => c.isDigit || c == ',')
  let rest1 := cs.dropWhile (fun c => c.isDigit || c == ',')
  if run1.isEmpty then none
  else
    match rest1 with
    | '.' :: r2 =>
      let run2 := r2.takeWhile Char.isDigit
      let rest2 := r2.dropWhile Char.isDigit
      if run2.isEmpty then some (run1, rest1) else some (run1 ++ '.' :: run2, rest2)
    | _ => some (run1, rest1)

/-- `re.findall(r'[\d,]+(?:\.\d+)?', text)`: left-to-right non-overlapping
scan. Fueled by the input length; each match consumes at least one char. -/
def scanNumsAux : ℕ → List Char → List String
  | 0, _ => []
  | _ + 1, [] => []
  | fuel + 1, c :: cs =>
    match numTok (c :: cs) with
    | some (tok, rest) => String.mk tok :: scanNumsAux fuel rest
    | none => scanNumsAux fuel cs

def findallNumbers (s : String) : List String := scanNumsAux s.toList.length s.toList

def stripCommasSpaces (s : String) : String := pyReplace (pyReplace s "," "") " " ""

/-- `extract_number_from_text(text)`: last (rightmost) number with commas
and spaces removed; `none` when the regex finds nothing. -/
def extractNumberFromText (text : String) : Option String :=
  match findallNumbers text with
  | [] => none
  | n :: ns =>
    if (n :: ns).length > 1 then some (stripCommasSpaces ((n :: ns).getLast?.getD n))
    else some (stripCommasSpaces n)

/-- Python truthiness of the `num` variable (`if num:`): a non-`None`,
nonempty string. -/
def numTruthy : Option String → Bool
  | some s => !(s == "")
  | none => false

-- ==================== find_number_with_context (lines 88-142) ====================

/-- The thousands-separator variants tried for a cleaned number string
(lines 93-99): Python slices `clean_num[:-3]` / `clean_num[-3:]`. -/
def numberVariations (cleanNum : String) : List String :=
  let cs := cleanNum.toList
  let pre := String.mk (cs.take (cs.length - 3))
  let suf := String.mk (cs.drop (cs.length - 3))
  [cleanNum, pre ++ "," ++ suf, pre ++ " " ++ suf]

/-- `find_number_with_context(page, number_str, context_words)`: every
occurrence of a separator variant of the number, accepted at the first
occurrence whose line (within `y_tolerance`) fuzzily contains at least
one context word. -/
def findNumberWithContext (page : Page) (numberStr : String)
    (contextWords : List String) : Option Rect :=
  if numberStr = "" ∨ contextWords = [] then none
  else
    let cleanNum := pyReplace (pyReplace numberStr "," "") " " ""
    let numRects := (numberVariations cleanNum).foldl
      (fun acc v => acc ++ page.searchFor v) []
    numRects.find? (fun numRect =>
      let lineWords := (page.words.filter
        (fun w => decide (|w.2.y0 - numRect.y0| ≤ yTolerance))).map (fun w => pyLower w.1)
      let matchCount := (contextWords.filter (fun ctxWord =>
        let ctxLower := pyLower ctxWord
        lineWords.any (fun w =>
          substrIn ctxLower.toList w.toList || substrIn w.toList ctxLower.toList))).length
      decide (matchCount ≥ min 1 contextWords.length))

-- ==================== find_number_rect_in_text (lines 161-188) ====================

/-- `find_number_rect_in_text(page, text_rect, number_str)`: re-search a
rightward strip on the same line for `number_str`, returning the last
(rightmost) hit, else the original rectangle. The page and rectangle
arguments are always supplied here, so only the `number_str` truthiness
guard is live. -/
def findNumberRectInText (page : Page) (textRect : Rect) (numberStr : String) : Rect :=
  if numberStr = "" then textRect
  else
    let searchArea : Rect :=
      ⟨textRect.x0, textRect.y0 - 2, page.width - 50, textRect.y1 + 2⟩
    match (page.searchForClip numberStr searchArea).getLast? with
    | some found => found
    | none => textRect

-- ==================== resolve_anchor_rect (lines 191-323) ====================

/-- The per-hit dedup loop (`if skip_duplicates and mark_key in
placed_marks: continue`): first hit whose `(page, round(y0))` key is
free. -/
def firstFree (pageNum : ℕ) (marks : Finset (ℕ × ℤ)) (skip : Bool)
    (hits : List Rect) : Option Rect :=
  hits.find? (fun r => !(skip && decide ((pageNum, pyRound r.y0) ∈ marks)))

/-- `dict.fromkeys` dedup preserving first occurrences; `seen` collects
the keys already emitted. -/
def dedupAux : List String → List String → List String
  | _, [] => []
  | seen, x :: xs =>
    if x ∈ seen then dedupAux seen xs else x :: dedupAux (x :: seen) xs

def dedupPreserve (l : List String) : List String := dedupAux [] l

/-- `re.match(r'^[\d,().=-]+$', w)`: `w` consists entirely of digits and
the listed punctuation. -/
def anchorPunctOnly (w : String) : Bool :=
  !w.isEmpty && w.toList.all
    (fun c => c.isDigit || c == ',' || c == '(' || c == ')' || c == '.' || c == '=' || c == '-')

/-- Context words for the hybrid strategy (lines 249-254). -/
def contextWordsOf (anchorText : String) : List String :=
  (dedupPreserve ((pySplitWS anchorText).filter
    (fun w => decide (w.length > 2) && !anchorPunctOnly w && decide (w.length < 15)))).take 5

/-- Word hit-lists for the cluster strategy (lines 269-276). -/
def rectsByWordOf (page : Page) (anchorText : String) : List (List Rect) :=
  ((pySplitWS anchorText).take maxAnchorWords).filterMap (fun w =>
    if w.length > 2 then
      match findTextRectsFuzzy page w false with
      | [] => none
      | hs => some hs
    else none)

/-- Stable insertion of a rectangle into a list sorted by `x0`
(equal keys keep earlier elements first, like Python's stable sort). -/
def insertByX0 (r : Rect) : List Rect → List Rect
  | [] => [r]
  | x :: xs => if x.x0 ≤ r.x0 then x :: insertByX0 r xs else r :: x :: xs

def sortByX0 (l : List Rect) : List Rect := l.foldl (fun acc r => insertByX0 r acc) []

def listMaxZ : List ℤ → ℤ
  | [] => 0
  | x :: xs => xs.foldl max x

def listMinZ : List ℤ → ℤ
  | [] => 0
  | x :: xs => xs.foldl min x

/-- Strategy 4, word-by-word clustering (lines 268-300): `Sum.inl` is an
early `return`, `Sum.inr` carries the (possibly updated) fallback. -/
def strategy4 (page : Page) (pageNum : ℕ) (anchorText : String)
    (marks : Finset (ℕ × ℤ)) (skip : Bool) (best : Option (Rect × ℕ)) :
    (Rect × ℕ) ⊕ Option (Rect × ℕ) :=
  let words4 := (pySplitWS anchorText).take maxAnchorWords
  let rectsByWord := rectsByWordOf page anchorText
  if rectsByWord ≠ [] ∧ rectsByWord.length ≥ max 2 (words4.length - 2) then
    match rectsByWord.filterMap List.head? with
    | [] => Sum.inr best
    | m :: ms =>
      let sorted := sortByX0 (m :: ms)
      let yVals := sorted.map Rect.y0
      if listMaxZ yVals - listMinZ yVals ≤ yTolerance then
        let combined := (sorted.drop 1).foldl Rect.union (sorted.headD m)
        if skip = true ∧ (pageNum, pyRound combined.y0) ∈ marks then
          Sum.inr (if best.isNone then some (sorted.headD m, pageNum) else best)
        else Sum.inl (combined, pageNum)
      else Sum.inr (if best.isNone then some (sorted.headD m, pageNum) else best)
  else Sum.inr best

/-- Strategy 1, exact phrase (lines 204-224): first non-occupied exact
hit, refined onto the number when the evidence is numeric and the number
sits meaningfully (more than 5 units) to the right. -/
def strategy1 (page : Page) (pageNum : ℕ) (anchorText : String)
    (marks : Finset (ℕ × ℤ)) (skip : Bool) : Option Rect :=
  match firstFree pageNum marks skip (page.searchFor anchorText) with
  | some rect =>
    let num := extractNumberFromText anchorText
    some (if numTruthy num then
        (let refined := findNumberRectInText page rect (num.getD "")
         if refined.x0 > rect.x0 + 5 then refined else rect)
      else rect)
  | none => none

/-- Strategy 2, cleaned phrase (lines 226-243): like strategy 1 but for
the normalizer's cleaned form, and the number refinement substitutes
unconditionally. -/
def strategy2 (page : Page) (pageNum : ℕ) (anchorText : String)
    (marks : Finset (ℕ × ℤ)) (skip : Bool) : Option Rect :=
  match cleanAnchorText anchorText maxAnchorWords with
  | some cp =>
    if cp ≠ "" ∧ cp ≠ anchorText then
      match firstFree pageNum marks skip (page.searchFor cp) with
      | some rect =>
        let num := extractNumberFromText anchorText
        some (if numTruthy num then findNumberRectInText page rect (num.getD "") else rect)
      | none => none
    else none
  | none => none

/-- Strategy 3, number + context hybrid (lines 245-266). An occupied
hybrid hit yields `none` here (the code falls through to strategy 4
without trying further occurrences). -/
def strategy3 (page : Page) (pageNum : ℕ) (anchorText : String)
    (marks : Finset (ℕ × ℤ)) (skip : Bool) : Option Rect :=
  let num := extractNumberFromText anchorText
  if numTruthy num then
    match findNumberWithContext page (num.getD "") (contextWordsOf anchorText) with
    | some hybridRect =>
      if skip = true ∧ (pageNum, pyRound hybridRect.y0) ∈ marks then none
      else some hybridRect
    | none => none
  else none

/-- Strategy 5, number alone (lines 302-313): only consulted when no
fallback is set; keeps the incoming fallback otherwise. -/
def strategy5 (page : Page) (pageNum : ℕ) (anchorText : String)
    (marks : Finset (ℕ × ℤ)) (skip : Bool) (best1 : Option (Rect × ℕ)) :
    Option (Rect × ℕ) :=
  let num := extractNumberFromText anchorText
  if numTruthy num ∧ best1 = none then
    match firstFree pageNum marks skip (page.searchFor (num.getD "")) with
    | some r => some (r, pageNum)
    | none => none
  else best1

/-- One iteration of the page loop of `resolve_anchor_rect`
(lines 201-313). First component `some res` is an early `return`;
otherwise the second component is the updated fallback `best`. -/
def resolvePage (doc : Doc) (anchorText : String) (marks : Finset (ℕ × ℤ))
    (skip : Bool) (pageNum : ℕ) (best : Option (Rect × ℕ)) :
    Option (Rect × ℕ) × Option (Rect × ℕ) :=
  let page := doc (pageNum - 1)
  match strategy1 page pageNum anchorText marks skip with
  | some rect => (some (rect, pageNum), best)
  | none =>
    match strategy2 page pageNum anchorText marks skip with
    | some rect => (some (rect, pageNum), best)
    | none =>
      match strategy3 page pageNum anchorText marks skip with
      | some hybridRect => (some (hybridRect, pageNum), best)
      | none =>
        match strategy4 page pageNum anchorText marks skip best with
        | Sum.inl res => (some res, best)
        | Sum.inr best1 => (none, strategy5 page pageNum anchorText marks skip best1)

/-- The page loop plus the final fallback check (lines 201-323). -/
def resolveLoop (doc : Doc) (anchorText : String) (marks : Finset (ℕ × ℤ))
    (skip : Bool) : List ℕ → Option (Rect × ℕ) → Option (Rect × ℕ)
  | [], best =>
    match best with
    | some (r, p) =>
      if skip = true ∧ (p, pyRound r.y0) ∈ marks then none else some (r, p)
    | none => none
  | p :: rest, best =>
    match resolvePage doc anchorText marks skip p best with
    | (some res, _) => some res
    | (none, best1) => resolveLoop doc anchorText marks skip rest best1

/-- `resolve_anchor_rect(doc, anchor_text, allowed_pages, placed_marks,
skip_duplicates)`; `none` stands for the Python `(None, None)`. -/
def resolveAnchorRect (doc : Doc) (anchorText : String) (allowedPages : List ℕ)
    (placedMarks : Finset (ℕ × ℤ)) (skipDuplicates : Bool) : Option (Rect × ℕ) :=
  if anchorText = "" then none
  else resolveLoop doc anchorText placedMarks skipDuplicates allowedPages none

-- ==================== add_popup_for_comment guards (lines 326-347) ====================

/-- Count of leading ASCII digits, plus the remainder. -/
def takeDigitsCount : List Char → ℕ × List Char
  | [] => (0, [])
  | c :: rest =>
    if c.isDigit then
      let (n, r) := takeDigitsCount rest
      (n + 1, r)
    else (0, c :: rest)

/-- Match of `\d+\.\d+/\d+` anchored at the head of the list. Since the
digit runs are delimited by the non-digit characters `.` and `/`, the
greedy backtracking match succeeds exactly when this direct parse does. -/
def scoreFracAt (l : List Char) : Bool :=
  let p1 := takeDigitsCount l
  if p1.1 = 0 then false
  else
    match p1.2 with
    | '.' :: r2 =>
      let p2 := takeDigitsCount r2
      if p2.1 = 0 then false
      else
        match p2.2 with
        | '/' :: r4 => decide ((takeDigitsCount r4).1 > 0)
        | _ => false
    | _ => false

def suffixScanScore : List Char → Bool
  | [] => false
  | c :: rest => scoreFracAt (c :: rest) || suffixScanScore rest

/-- `re.search(r'\d+\.\d+/\d+', comment)` as a truth value. -/
def hasScorePattern (s : String) : Bool := suffixScanScore s.toList

/-- `comment.split('→')[0]`. -/
def beforeArrow (s : String) : String :=
  String.mk (s.toList.takeWhile (fun c => !(c == '→')))

def quoteChars : List Char := "\"'".toList

/-- `add_popup_for_comment(doc, comment, allowed_pages, placed_marks)`
(lines 326-366), returning the success flag and the drawn primitives. -/
def addPopupForComment (doc : Doc) (comment : String) (allowedPages : List ℕ)
    (placedMarks : Finset (ℕ × ℤ)) : Bool × List DrawCmd :=
  if comment = "" || !(comment.toList.any (fun c => c == '→')) then (false, [])
  else if strContainsSub (pyUpper comment) "TOTAL SCORE" || hasScorePattern comment then
    (false, [])
  else
    let anchorPart := pyStripChars quoteChars (pyStrip (beforeArrow comment))
    if anchorPart = "" || decide (anchorPart.length < 3) then (false, [])
    else
      match resolveAnchorRect doc anchorPart allowedPages placedMarks false with
      | some (rect, pageNum) =>
        let page := doc (pageNum - 1)
        let x := page.width - commentOffset
        let y := rect.y0 + criterionScoreOffsetY
        (true, [DrawCmd.note pageNum (x, y) (pyStrip comment)])
      | none => (false, [])

-- ==================== place_score_near_anchor (lines 369-432) ====================

/-- `re.sub(r'\.\.\..*', '', anchor_text)`: drop from the first `...` of
each line to that line's end (`.` does not cross `\n`). The flag is true
while skipping to the next newline. -/
def stripEllipsisAux : Bool → List Char → List Char
  | _, [] => []
  | true, c :: rest =>
    if c = '\n' then '\n' :: stripEllipsisAux false rest
    else stripEllipsisAux true rest
  | false, '.' :: '.' :: '.' :: rest => stripEllipsisAux true rest
  | false, c :: rest => c :: stripEllipsisAux false rest

def stripEllipsisTail (s : String) : String := String.mk (stripEllipsisAux false s.toList)

/-- The cleaned evidence string of `place_score_near_anchor` (line 370). -/
def evidenceCleanOf (anchorText : String) : String := pyStrip (stripEllipsisTail anchorText)

/-- `any(abs(final_y - p) <= CONFIG['y_tolerance'] for p in nearby_ys)`. -/
def hasCollision (y : ℤ) (s : Finset ℤ) : Bool :=
  decide (∃ p ∈ s, |y - p| ≤ yTolerance)

/-- The stagger loop (lines 390-395): `while collision and attempts < 8:
final_y += offset; collision = ...` with `offset = y_tolerance * 1.5`. -/
def staggerWhile (s : Finset ℤ) : ℕ → ℤ → Bool → ℤ × Bool
  | 0, y, coll => (y, coll)
  | n + 1, y, coll =>
    if coll then
      let y1 := y + yTolerance * 3 / 2
      staggerWhile s n y1 (hasCollision y1 s)
    else (y, coll)

/-- The final y-position chosen by the collision block (lines 382-400):
stagger on collision, and on exhaustion fall back to
`max(nearby_ys) + y_tolerance * 3` (or `rect.y0 + 50` when the page has
no marks). -/
def computeFinalY (y0 : ℤ) (nearbyYs : Finset ℤ) : ℤ :=
  if hasCollision y0 nearbyYs then
    let sw := staggerWhile nearbyYs 8 y0 true
    if sw.2 then
      if nearbyYs ≠ ∅ then nearbyYs.max.unbot' 0 + yTolerance * 3 else y0 + 50
    else sw.1
  else y0

/-- Mutable run state of `annotate_pdf`: `placed_lines_per_page` (read
with an empty-set default), `placed_marks`, `unplaced_items`, and the
drawing commands issued so far. -/
structure AnnotState where
  placedLines : ℕ → Finset ℤ
  marks : Finset (ℕ × ℤ)
  unplaced : List (String × String)
  cmds : List DrawCmd

/-- Lines 499-501: fresh per-run state. -/
def initAnnotState : AnnotState :=
  { placedLines := fun _ => ∅, marks := ∅, unplaced := [], cmds := [] }

/-- Result of one `place_score_near_anchor` call: the Python return value
(`success`), the updated state, and — for analysis — the resolution the
placement used, the final y, the registry key added, and the anchor
strings passed to `resolve_anchor_rect`. -/
structure PlaceOutcome where
  success : Bool
  st : AnnotState
  resolved : Option (Rect × ℕ)
  finalY : Option ℤ
  markAdded : Option (ℕ × ℤ)
  resolveCalls : List String

/-- `place_score_near_anchor(doc, anchor_text, score_text, allowed_pages,
placed_lines_per_page, placed_marks, unplaced_items)` (lines 369-432). -/
def placeScoreNearAnchor (doc : Doc) (anchorText scoreText : String)
    (allowedPages : List ℕ) (st : AnnotState) : PlaceOutcome :=
  let evidenceClean := evidenceCleanOf anchorText
  if evidenceClean = "" then
    { success := false,
      st := { st with unplaced := st.unplaced ++ [(scoreText, "[empty]")] },
      resolved := none, finalY := none, markAdded := none, resolveCalls := [] }
  else
    match resolveAnchorRect doc evidenceClean allowedPages st.marks true with
    | some (rect, pageNum) =>
      let page := doc (pageNum - 1)
      let pageIdx := pageNum - 1
      let nearbyYs := st.placedLines pageIdx
      let finalY := computeFinalY rect.y0 nearbyYs
      let scoreX := rect.x0 + criterionScoreOffsetX
      let underlineEnd := min (rect.x1 + 15) (page.width - 50)
      let lineCmd := DrawCmd.line pageNum (rect.x0, rect.y1 + 2) (underlineEnd, rect.y1 + 2)
      let scoreY := finalY + criterionScoreOffsetY
      let textCmd :=
        DrawCmd.text pageNum (max scoreX 50, scoreY) scoreText criterionScoreFontsize
      { success := true,
        st := { st with
          placedLines := fun i => if i = pageIdx then insert finalY (st.placedLines i)
            else st.placedLines i,
          marks := insert (pageNum, pyRound finalY) st.marks,
          cmds := st.cmds ++ [lineCmd, textCmd] },
        resolved := some (rect, pageNum), finalY := some finalY,
        markAdded := some (pageNum, pyRound finalY), resolveCalls := [evidenceClean] }
    | none =>
      { success := false,
        st := { st with
          unplaced := st.unplaced ++ [(scoreText, String.mk ((evidenceCleanOf anchorText).toList.take 50))] },
        resolved := none, finalY := none, markAdded := none,
        resolveCalls := [evidenceClean] }

-- ==================== add_main_score (lines 435-468) ====================

/-- The inner strategy loop of `add_main_score` (lines 450-465). -/
def tryStrategiesOnPage (page : Page) (pageNum : ℕ) (scoreText : String) :
    List (String × String) → Option (DrawCmd × ℕ × String)
  | [] => none
  | (searchText, strategyName) :: rest =>
    match page.searchFor searchText with
    | [] => tryStrategiesOnPage page pageNum scoreText rest
    | rect :: _ =>
      let x := rect.x0 - mainScoreOffsetX
      let y := rect.y0 + mainScoreOffsetY - 10
      some (DrawCmd.text pageNum (x, y) scoreText mainScoreFontsize, pageNum, strategyName)

def mainScoreLoop (doc : Doc) (scoreText : String) (strategies : List (String × String)) :
    List ℕ → Option (DrawCmd × ℕ × String)
  | [] => none
  | p :: rest =>
    match tryStrategiesOnPage (doc (p - 1)) p scoreText strategies with
    | some r => some r
    | none => mainScoreLoop doc scoreText strategies rest

/-- `add_main_score(doc, q_num, score_text, allowed_pages)` (lines
435-468): success flag, drawn primitives, and (page, strategy name) of
the hit, mirroring the log line. -/
def addMainScore (doc : Doc) (qNum : String) (scoreText : String)
    (allowedPages : List ℕ) : Bool × List DrawCmd × Option (ℕ × String) :=
  if qNum = "" then (false, [], none)
  else
    let qStr := pyStrip qNum
    let strategies := [(qStr, "exact Q match"), ("Q" ++ qStr, "Q prefix"),
      ("Question " ++ qStr, "Question prefix")]
    match mainScoreLoop doc scoreText strategies allowedPages with
    | some (cmd, pageNum, strategyName) => (true, [cmd], some (pageNum, strategyName))
    | none => (false, [], none)

-- ==================== annotate_pdf criterion loop (lines 516-534) ====================

/-- One entry of `grades_doc['breakdown']`: `marks_awarded` already
converted by `float(...)` (kept as an exact rational, only ever passed
to the score formatter), `evidence` possibly missing
(`item.get('evidence', '')`). -/
structure BreakdownItem where
  marksAwarded : ℚ
  evidence : Option String
  criterion : String

/-- Accumulated orchestrator state: run state, counters of lines 518 and
532-534, and the trace of anchor strings for which the resolver was
actually invoked. -/
structure RunResult where
  st : AnnotState
  placedCount : ℕ
  criteriaCount : ℕ
  trace : List String

/-- The body of the per-criterion loop (lines 519-534); `fmt` renders
`f"{marks}"`. Items whose stripped evidence is empty or at most 5
characters are skipped entirely. -/
def criterionStep (doc : Doc) (allowedPages : List ℕ) (fmt : ℚ → String)
    (acc : RunResult) (item : BreakdownItem) : RunResult :=
  let evidence := pyStrip (item.evidence.getD "")
  if evidence ≠ "" ∧ evidence.length > 5 then
    let o := placeScoreNearAnchor doc evidence (fmt item.marksAwarded) allowedPages acc.st
    { st := o.st,
      placedCount := acc.placedCount + (if o.success then 1 else 0),
      criteriaCount := acc.criteriaCount + 1,
      trace := acc.trace ++ o.resolveCalls }
  else acc

def runCriteriaFrom (doc : Doc) (allowedPages : List ℕ) (fmt : ℚ → String)
    (items : List BreakdownItem) (acc : RunResult) : RunResult :=
  items.foldl (criterionStep doc allowedPages fmt) acc

/-- The criterion phase of `annotate_pdf` starting from run state `st0`
(fresh registries in the real run). -/
def runCriteria (doc : Doc) (allowedPages : List ℕ) (fmt : ℚ → String)
    (items : List BreakdownItem) (st0 : AnnotState) : RunResult :=
  runCriteriaFrom doc allowedPages fmt items
    { st := st0, placedCount := 0, criteriaCount := 0, trace := [] }

-- ==================== concrete page fixtures for the claims ====================

/-- Pairwise vertical separation beyond `y_tolerance`: no two entries of
the per-page placed-line set lie within tolerance of each other. -/
def SepSet (s : Finset ℤ) : Prop :=
  ∀ a ∈ s, ∀ b ∈ s, a ≠ b → ¬(|a - b| ≤ yTolerance)

/-- A page on which nothing is searchable and no words exist. -/
def pageE : Page := { width := 612, height := 792, searchFor := fun _ => [], words := [] }

def docE : Doc := fun _ => pageE

/-- C1 fixture: phrase search finds nothing, but the three evidence words
exist as words on one line. -/
def rW1 : Rect := ⟨72, 300, 110, 312⟩
def rW2 : Rect := ⟨115, 300, 150, 312⟩
def rW3 : Rect := ⟨155, 300, 190, 312⟩

def page1 : Page :=
  { width := 612, height := 792, searchFor := fun _ => [],
    words := [("alpha", rW1), ("beta", rW2), ("gamma", rW3)] }

def doc1 : Doc := fun _ => page1

/-- C2 fixture: the same phrase occurs twice on the page. -/
def rA1 : Rect := ⟨72, 100, 200, 112⟩
def rA2 : Rect := ⟨72, 150, 200, 162⟩

def page2 : Page :=
  { width := 612, height := 792,
    searchFor := fun q => if q = "alpha beta gamma" then [rA1, rA2] else [],
    words := [] }

def doc2 : Doc := fun _ => page2

/-- C3 fixture (the spec's scenario): the full evidence phrase starts at
x = 80, the label alone spans x = 80..295, and the comma-formatted number
`12,000,000` sits at x = 301 on the same line. The comma-free string
`12000000` occurs nowhere, as literal search on such a page finds only
the comma-formatted rendering. -/
def phraseRect : Rect := ⟨80, 200, 355, 212⟩
def labelRect : Rect := ⟨80, 200, 295, 212⟩
def numberRect : Rect := ⟨301, 200, 355, 212⟩

def page3 : Page :=
  { width := 612, height := 792,
    searchFor := fun q =>
      if q = "Consideration (375,000*32): 12,000,000" then [phraseRect]
      else if q = "Consideration (375,000*32):" then [labelRect]
      else if q = "12,000,000" then [numberRect]
      else [],
    words := [] }

def doc3 : Doc := fun _ => page3

/-- C5 fixture: nine lines already placed 9 apart on page index 0; an
anchor resolving to y = 200 collides at every stagger step, exhausting
the retry budget. The mark registry is left empty so that resolution
itself succeeds and the collision block alone is exercised. -/
def rC5 : Rect := ⟨80, 200, 140, 212⟩

def page5 : Page :=
  { width := 612, height := 792,
    searchFor := fun q => if q = "delta epsilon zeta" then [rC5] else [],
    words := [] }

def doc5 : Doc := fun _ => page5

def linesC5 : Finset ℤ := {200, 209, 218, 227, 236, 245, 254, 263, 272}

def stC5 : AnnotState :=
  { placedLines := fun i => if i = 0 then linesC5 else ∅, marks := ∅,
    unplaced := [], cmds := [] }

/-- C6 fixture: the page renders the heading `Question 2`, and neither
the bare `2` nor `Q2` is searchable. -/
def pageQ : Page :=
  { width := 612, height := 792,
    searchFor := fun q => if q = "Question 2" then [⟨100, 90, 180, 106⟩] else [],
    words := [] }

def docQ : Doc := fun _ => pageQ


-- ==================== theorems ====================

/-- C3: for evidence `Consideration (375,000*32): 12,000,000` on a page
with the label at x = 80 and `12,000,000` at x = 301 on the same line,
the resolver returns the rectangle at x = 80, not x = 301: the rightward
re-search looks for the comma-stripped `12000000`, which literal page
search cannot find, so the promised number substitution never happens
(contradicting the docstring of `find_number_rect_in_text`). -/
theorem c3_refinement_misses_comma_number :
    extractNumberFromText "Consideration (375,000*32): 12,000,000" = some "12000000" ∧
    page3.searchFor "12,000,000" = [numberRect] ∧ numberRect.x0 = 301 ∧
    page3.searchFor "12000000" = [] ∧
    resolveAnchorRect doc3 "Consideration (375,000*32): 12,000,000" [1] ∅ true =
      some (phraseRect, 1) ∧
    phraseRect.x0 = 80 := by
  decide

/-- C8 counterexample: `"hello world"` has fewer than 3 words, yet
`clean_anchor_text` returns it unchanged rather than `None` (the code
only rejects inputs with fewer than 2 words). -/
theorem c8_counterexample :
    (anchorWords "hello world").length < 3 ∧
    cleanAnchorText "hello world" maxAnchorWords = some "hello world" := by
  decide

/-- C8 (amended): `clean_anchor_text` returns `None` for every empty
input and for every input with fewer than 2 words (after artifact
removal). -/
theorem c8_none_for_short_input (text : String)
    (h : text = "" ∨ (anchorWords text).length < 2) :
    cleanAnchorText text maxAnchorWords = none := by
  unfold cleanAnchorText
  rcases h with h | h
  · rw [if_pos h]
  · by_cases he : text = ""
    · rw [if_pos he]
    · rw [if_neg he]
      simp only [if_pos h]

theorem c8_none_for_short_input_witness :
    ((("a" : String) = "" ∨ (anchorWords "a").length < 2)) ∧
    cleanAnchorText "a" maxAnchorWords = none :=
  ⟨Or.inr (by decide), c8_none_for_short_input "a" (Or.inr (by decide))⟩

/-- C10: any comment containing `TOTAL SCORE` (in any letter case) or a
`digits.digits/digits` substring is rejected: `add_popup_for_comment`
returns `False` and draws nothing, whether or not the arrow separator is
present and resolvable. -/
theorem c10_total_score_guard (doc : Doc) (pages : List ℕ) (marks : Finset (ℕ × ℤ))
    (comment : String)
    (h : strContainsSub (pyUpper comment) "TOTAL SCORE" = true ∨
      hasScorePattern comment = true) :
    addPopupForComment doc comment pages marks = (false, []) := by
  unfold addPopupForComment
  split
  · rfl
  · rw [if_pos]
    rcases h with h | h <;> simp [h]

theorem c10_total_score_guard_witness :
    (strContainsSub (pyUpper "Total score 3.5/10 → Q2 answer") "TOTAL SCORE" = true ∨
      hasScorePattern "Total score 3.5/10 → Q2 answer" = true) ∧
    addPopupForComment docE "Total score 3.5/10 → Q2 answer" [1] ∅ = (false, []) :=
  ⟨Or.inl (by decide),
    c10_total_score_guard docE [1] ∅ "Total score 3.5/10 → Q2 answer" (Or.inl (by decide))⟩

/-- C7 counterexample: a criterion item with empty evidence is skipped
silently — the run records no unplaced entry for it (and never calls the
resolver), contradicting the claim that an unplaced entry is recorded. -/
theorem c7_counterexample :
    (runCriteria docE [1] (fun _ => "1.0") [⟨1, some "", "criterion A"⟩]
      initAnnotState).st.unplaced = [] ∧
    (runCriteria docE [1] (fun _ => "1.0") [⟨1, some "", "criterion A"⟩]
      initAnnotState).trace = [] ∧
    (runCriteria docE [1] (fun _ => "1.0") [⟨1, none, "criterion B"⟩]
      initAnnotState).st.unplaced = [] := by
  decide

/-- C7 (amended): an item whose evidence is missing or strips to the
empty string leaves the orchestrator state completely unchanged — the
resolver is never invoked and no unplaced entry is recorded. -/
theorem c7_empty_evidence_skipped (doc : Doc) (pages : List ℕ) (fmt : ℚ → String)
    (acc : RunResult) (item : BreakdownItem)
    (h : pyStrip (item.evidence.getD "") = "") :
    criterionStep doc pages fmt acc item = acc := by
  unfold criterionStep
  rw [if_neg]
  intro hcon
  exact hcon.1 h

theorem c7_empty_evidence_skipped_witness :
    pyStrip ((some "" : Option String).getD "") = "" ∧
    criterionStep docE [1] (fun _ => "1.0")
      { st := initAnnotState, placedCount := 0, criteriaCount := 0, trace := [] }
      ⟨1, some "", "criterion A"⟩ =
      { st := initAnnotState, placedCount := 0, criteriaCount := 0, trace := [] } :=
  ⟨by decide, c7_empty_evidence_skipped docE [1] (fun _ => "1.0") _ _ (by decide)⟩

/-- C2 counterexample: the second placement of the twice-occurring phrase
is steered to the second occurrence by the now-occupied registry, but
re-running resolution with an empty registry returns the first
occurrence — a different rectangle than the placement used. -/
theorem c2_counterexample :
    (placeScoreNearAnchor doc2 "alpha beta gamma" "1.0" [1] initAnnotState).success = true ∧
    (placeScoreNearAnchor doc2 "alpha beta gamma" "0.5" [1]
      (placeScoreNearAnchor doc2 "alpha beta gamma" "1.0" [1] initAnnotState).st).success = true ∧
    (placeScoreNearAnchor doc2 "alpha beta gamma" "0.5" [1]
      (placeScoreNearAnchor doc2 "alpha beta gamma" "1.0" [1] initAnnotState).st).resolved =
      some (rA2, 1) ∧
    resolveAnchorRect doc2 "alpha beta gamma" [1] ∅ true = some (rA1, 1) ∧
    rA1 ≠ rA2 := by
  decide

/-- C2 (amended): the cascade is deterministic given identical inputs
including the registry — re-running resolution against the same page
state and the registry contents from the moment of placement reproduces
exactly the `(rectangle, page)` the successful placement used. -/
theorem c2_resolution_reproducible (doc : Doc) (anchorText scoreText : String)
    (pages : List ℕ) (st : AnnotState)
    (h : (placeScoreNearAnchor doc anchorText scoreText pages st).success = true) :
    ∃ r p,
      resolveAnchorRect doc (evidenceCleanOf anchorText) pages st.marks true = some (r, p) ∧
      (placeScoreNearAnchor doc anchorText scoreText pages st).resolved = some (r, p) := by
  unfold placeScoreNearAnchor at h ⊢
  by_cases he : evidenceCleanOf anchorText = ""
  · rw [if_pos he] at h
    exact Bool.noConfusion h
  · rw [if_neg he] at h ⊢
    revert h
    rcases hres : resolveAnchorRect doc (evidenceCleanOf anchorText) pages st.marks true
      with _ | ⟨r, p⟩
    · intro h
      exact Bool.noConfusion h
    · intro _
      exact ⟨r, p, rfl, rfl⟩

theorem c2_resolution_reproducible_witness :
    (placeScoreNearAnchor doc2 "alpha beta gamma" "1.0" [1] initAnnotState).success = true ∧
    ∃ r p,
      resolveAnchorRect doc2 (evidenceCleanOf "alpha beta gamma") [1]
        initAnnotState.marks true = some (r, p) ∧
      (placeScoreNearAnchor doc2 "alpha beta gamma" "1.0" [1] initAnnotState).resolved =
        some (r, p) :=
  ⟨by decide,
    c2_resolution_reproducible doc2 "alpha beta gamma" "1.0" [1] initAnnotState (by decide)⟩

/-- C6: on an allowed page where the bare `2` and `Q2` are not
searchable but `Question 2` is, the main score is placed, and it is
placed by the `Question `-prefixed strategy (the strategies being tried
in order literal, `Q`-prefixed, `Question `-prefixed, stopping at the
first hit). -/
theorem c6_question_prefix_strategy (doc : Doc) (scoreText : String) (r : Rect)
    (rs : List Rect)
    (h2 : (doc 0).searchFor "2" = [])
    (hq2 : (doc 0).searchFor "Q2" = [])
    (hquest : (doc 0).searchFor "Question 2" = r :: rs) :
    addMainScore doc "2" scoreText [1] =
      (true,
        [DrawCmd.text 1 (r.x0 - mainScoreOffsetX, r.y0 + mainScoreOffsetY - 10)
          scoreText mainScoreFontsize],
        some (1, "Question prefix")) := by
  have e0 : pyStrip "2" = "2" := by decide
  have e1 : ("Q" ++ ("2" : String)) = "Q2" := by decide
  have e2 : ("Question " ++ ("2" : String)) = "Question 2" := by decide
  simp only [addMainScore, mainScoreLoop, tryStrategiesOnPage, e0, e1, e2,
    Nat.sub_self, h2, hq2, hquest]
  rw [if_neg (by decide : ¬("2" : String) = "")]

theorem c6_question_prefix_strategy_witness :
    pageQ.searchFor "2" = [] ∧ pageQ.searchFor "Q2" = [] ∧
    pageQ.searchFor "Question 2" = [⟨100, 90, 180, 106⟩] ∧
    addMainScore docQ "2" "7.0/10" [1] =
      (true,
        [DrawCmd.text 1 ((⟨100, 90, 180, 106⟩ : Rect).x0 - mainScoreOffsetX,
          (⟨100, 90, 180, 106⟩ : Rect).y0 + mainScoreOffsetY - 10) "7.0/10" mainScoreFontsize],
        some (1, "Question prefix")) :=
  ⟨by decide, by decide, by decide,
    c6_question_prefix_strategy docQ "7.0/10" ⟨100, 90, 180, 106⟩ []
      (by decide) (by decide) (by decide)⟩

/-- `place_score_near_anchor` never removes registry keys. -/
theorem placeScore_marks_mono (doc : Doc) (anchorText scoreText : String)
    (pages : List ℕ) (st : AnnotState) :
    st.marks ⊆ (placeScoreNearAnchor doc anchorText scoreText pages st).st.marks := by
  unfold placeScoreNearAnchor
  by_cases he : evidenceCleanOf anchorText = ""
  · rw [if_pos he]
  · rw [if_neg he]
    rcases resolveAnchorRect doc (evidenceCleanOf anchorText) pages st.marks true
      with _ | ⟨r, p⟩
    · exact Finset.Subset.refl _
    · exact Finset.subset_insert _ _

/-- A successful placement adds exactly its own `(page, rounded_y)` key. -/
theorem placeScore_success_adds_key (doc : Doc) (anchorText scoreText : String)
    (pages : List ℕ) (st : AnnotState)
    (h : (placeScoreNearAnchor doc anchorText scoreText pages st).success = true) :
    ∃ k, (placeScoreNearAnchor doc anchorText scoreText pages st).markAdded = some k ∧
      (placeScoreNearAnchor doc anchorText scoreText pages st).st.marks = insert k st.marks ∧
      k ∈ (placeScoreNearAnchor doc anchorText scoreText pages st).st.marks := by
  unfold placeScoreNearAnchor at h ⊢
  by_cases he : evidenceCleanOf anchorText = ""
  · rw [if_pos he] at h
    exact Bool.noConfusion h
  · rw [if_neg he] at h ⊢
    revert h
    rcases hres : resolveAnchorRect doc (evidenceCleanOf anchorText) pages st.marks true
      with _ | ⟨r, p⟩
    · intro h
      exact Bool.noConfusion h
    · intro _
      exact ⟨_, rfl, rfl, Finset.mem_insert_self _ _⟩

theorem criterionStep_marks_mono (doc : Doc) (pages : List ℕ) (fmt : ℚ → String)
    (acc : RunResult) (item : BreakdownItem) :
    acc.st.marks ⊆ (criterionStep doc pages fmt acc item).st.marks := by
  simp only [criterionStep]
  split
  · exact placeScore_marks_mono _ _ _ _ _
  · exact Finset.Subset.refl _

theorem runCriteriaFrom_marks_mono (doc : Doc) (pages : List ℕ) (fmt : ℚ → String)
    (items : List BreakdownItem) :
    ∀ acc : RunResult, acc.st.marks ⊆ (runCriteriaFrom doc pages fmt items acc).st.marks := by
  induction items with
  | nil => intro acc; exact Finset.Subset.refl _
  | cons item rest ih =>
    intro acc
    exact (criterionStep_marks_mono doc pages fmt acc item).trans
      (ih (criterionStep doc pages fmt acc item))

/-- C9: the mark registry only grows. Every `place_score_near_anchor`
call keeps the existing keys; a successful call adds exactly its own
`(page, rounded_y)` key (which is then a member); and across a whole
criterion run the key set of the final state contains the key set of
the initial state — no operation removes a key. -/
theorem c9_registry_monotone :
    (∀ (doc : Doc) (anchorText scoreText : String) (pages : List ℕ) (st : AnnotState),
      st.marks ⊆ (placeScoreNearAnchor doc anchorText scoreText pages st).st.marks ∧
      ((placeScoreNearAnchor doc anchorText scoreText pages st).success = true →
        ∃ k, (placeScoreNearAnchor doc anchorText scoreText pages st).markAdded = some k ∧
          (placeScoreNearAnchor doc anchorText scoreText pages st).st.marks =
            insert k st.marks ∧
          k ∈ (placeScoreNearAnchor doc anchorText scoreText pages st).st.marks)) ∧
    (∀ (doc : Doc) (pages : List ℕ) (fmt : ℚ → String) (items : List BreakdownItem)
      (acc : RunResult),
      acc.st.marks ⊆ (runCriteriaFrom doc pages fmt items acc).st.marks) :=
  ⟨fun doc a s p st =>
    ⟨placeScore_marks_mono doc a s p st, placeScore_success_adds_key doc a s p st⟩,
    fun doc p fmt items acc => runCriteriaFrom_marks_mono doc p fmt items acc⟩

theorem c9_registry_monotone_witness :
    (placeScoreNearAnchor doc2 "alpha beta gamma" "1.0" [1] initAnnotState).success = true ∧
    ∃ k, (placeScoreNearAnchor doc2 "alpha beta gamma" "1.0" [1] initAnnotState).markAdded =
        some k ∧
      (placeScoreNearAnchor doc2 "alpha beta gamma" "1.0" [1] initAnnotState).st.marks =
        insert k initAnnotState.marks ∧
      k ∈ (placeScoreNearAnchor doc2 "alpha beta gamma" "1.0" [1] initAnnotState).st.marks :=
  ⟨by decide,
    (c9_registry_monotone.1 doc2 "alpha beta gamma" "1.0" [1] initAnnotState).2 (by decide)⟩

theorem hasCollision_eq_false_iff {y : ℤ} {s : Finset ℤ} :
    hasCollision y s = false ↔ ∀ p ∈ s, ¬(|y - p| ≤ yTolerance) := by
  simp only [hasCollision, decide_eq_false_iff_not, not_exists, not_and]

/-- The collision flag carried by the stagger loop always equals the
collision test at the carried y-position. -/
theorem staggerWhile_snd_eq (s : Finset ℤ) :
    ∀ (n : ℕ) (y : ℤ) (c : Bool), c = hasCollision y s →
      (staggerWhile s n y c).2 = hasCollision (staggerWhile s n y c).1 s := by
  intro n
  induction n with
  | zero => intro y c h; exact h
  | succ n ih =>
    intro y c h
    cases c with
    | false => exact h
    | true =>
      exact ih (y + yTolerance * 3 / 2) (hasCollision (y + yTolerance * 3 / 2) s) rfl

/-- The y-position chosen by the collision block is never within
tolerance of an already-placed line of the same page. -/
theorem computeFinalY_not_close (y0 : ℤ) (s : Finset ℤ) :
    ∀ p ∈ s, ¬(|computeFinalY y0 s - p| ≤ yTolerance) := by
  intro p hp
  simp only [computeFinalY]
  by_cases hc : hasCollision y0 s = true
  · rw [if_pos hc]
    have hsnd := staggerWhile_snd_eq s 8 y0 true hc.symm
    by_cases h2 : (staggerWhile s 8 y0 true).2 = true
    · rw [if_pos h2, if_pos (Finset.ne_empty_of_mem hp)]
      obtain ⟨m, hm⟩ := Finset.max_of_mem hp
      have hpm : p ≤ m := by
        have hle := Finset.le_max hp
        rw [hm] at hle
        exact_mod_cast hle
      rw [hm]
      have hub : (WithBot.unbot' 0 (m : WithBot ℤ)) = m := rfl
      rw [hub]
      have h6 : (yTolerance : ℤ) = 6 := rfl
      rw [h6]
      intro habs
      rw [abs_le] at habs
      omega
    · rw [if_neg h2]
      have hfalse : (staggerWhile s 8 y0 true).2 = false := Bool.eq_false_iff.mpr h2
      rw [hfalse] at hsnd
      exact hasCollision_eq_false_iff.mp hsnd.symm p hp
  · rw [if_neg hc]
    have hcf : hasCollision y0 s = false := Bool.eq_false_iff.mpr hc
    exact hasCollision_eq_false_iff.mp hcf p hp

theorem sepSet_insert {s : Finset ℤ} {y : ℤ} (hs : SepSet s)
    (hy : ∀ p ∈ s, ¬(|y - p| ≤ yTolerance)) : SepSet (insert y s) := by
  intro a ha b hb hab
  rcases Finset.mem_insert.mp ha with rfl | ha'
  · rcases Finset.mem_insert.mp hb with rfl | hb'
    · exact absurd rfl hab
    · exact hy b hb'
  · rcases Finset.mem_insert.mp hb with rfl | hb'
    · intro habs
      exact hy a ha' (by rwa [abs_sub_comm] at habs)
    · exact hs a ha' b hb' hab

theorem placeScore_preserves_sep (doc : Doc) (anchorText scoreText : String)
    (pages : List ℕ) (st : AnnotState)
    (h : ∀ i, SepSet (st.placedLines i)) :
    ∀ i, SepSet ((placeScoreNearAnchor doc anchorText scoreText pages st).st.placedLines i) := by
  intro i
  unfold placeScoreNearAnchor
  by_cases he : evidenceCleanOf anchorText = ""
  · rw [if_pos he]
    exact h i
  · rw [if_neg he]
    rcases resolveAnchorRect doc (evidenceCleanOf anchorText) pages st.marks true
      with _ | ⟨r, p⟩
    · exact h i
    · show SepSet (if i = p - 1 then
        insert (computeFinalY r.y0 (st.placedLines (p - 1))) (st.placedLines i)
        else st.placedLines i)
      by_cases hi : i = p - 1
      · rw [if_pos hi, hi]
        exact sepSet_insert (h (p - 1)) (computeFinalY_not_close r.y0 (st.placedLines (p - 1)))
      · rw [if_neg hi]
        exact h i

theorem criterionStep_preserves_sep (doc : Doc) (pages : List ℕ) (fmt : ℚ → String)
    (acc : RunResult) (item : BreakdownItem)
    (h : ∀ i, SepSet (acc.st.placedLines i)) :
    ∀ i, SepSet ((criterionStep doc pages fmt acc item).st.placedLines i) := by
  simp only [criterionStep]
  split
  · exact placeScore_preserves_sep _ _ _ _ _ h
  · exact h

theorem runCriteriaFrom_preserves_sep (doc : Doc) (pages : List ℕ) (fmt : ℚ → String)
    (items : List BreakdownItem) :
    ∀ acc : RunResult, (∀ i, SepSet (acc.st.placedLines i)) →
      ∀ i, SepSet ((runCriteriaFrom doc pages fmt items acc).st.placedLines i) := by
  induction items with
  | nil => intro acc h; exact h
  | cons item rest ih =>
    intro acc h
    exact ih (criterionStep doc pages fmt acc item)
      (criterionStep_preserves_sep doc pages fmt acc item h)

/-- C4: starting from the fresh per-run state, after processing any
criterion list, the set of final y-positions of successfully placed
criterion scores on every page is pairwise separated by more than
`Y_TOLERANCE` — a colliding second score is staggered (or sent to the
fallback position) so that no two placed scores overlap. -/
theorem c4_no_two_scores_within_tolerance (doc : Doc) (pages : List ℕ)
    (fmt : ℚ → String) (items : List BreakdownItem) (i : ℕ) :
    SepSet ((runCriteria doc pages fmt items initAnnotState).st.placedLines i) := by
  have h0 : ∀ j, SepSet (initAnnotState.placedLines j) := by
    intro j a ha
    exact absurd ha (Finset.not_mem_empty a)
  exact runCriteriaFrom_preserves_sep doc pages fmt items _ h0 i

/-- C5 counterexample: when the stagger budget is exhausted the score is
NOT moved to the page's right margin — it is drawn at the anchor-derived
x-position `max(rect.x0 - 18, 50) = 62`, in the left half of the
612-wide page, only its y moving below the lowest existing mark
(272 + 18 = 290). -/
theorem c5_counterexample :
    (placeScoreNearAnchor doc5 "delta epsilon zeta" "1" [1] stC5).success = true ∧
    (staggerWhile (stC5.placedLines 0) 8 rC5.y0 true).2 = true ∧
    (placeScoreNearAnchor doc5 "delta epsilon zeta" "1" [1] stC5).finalY = some 290 ∧
    DrawCmd.text 1 (62, 293) "1" criterionScoreFontsize ∈
      (placeScoreNearAnchor doc5 "delta epsilon zeta" "1" [1] stC5).st.cmds ∧
    (62 : ℤ) = max (rC5.x0 + criterionScoreOffsetX) 50 ∧
    (62 : ℤ) < 612 / 2 ∧
    page5.width - commentOffset = 577 := by
  decide

/-- C5 (amended): when a placement still collides after the bounded
stagger retry budget, the mark keeps its anchor-derived x-position
`max(rect.x0 - 18, 50)` (it is not moved to the right margin) and its
y-position becomes `max(nearby_ys) + 3 * Y_TOLERANCE`, strictly below
every mark previously placed on that page. -/
theorem c5_fallback_below_lowest (doc : Doc) (anchorText scoreText : String)
    (pages : List ℕ) (st : AnnotState) (rect : Rect) (pageNum : ℕ) (m : ℤ)
    (hres : resolveAnchorRect doc (evidenceCleanOf anchorText) pages st.marks true =
      some (rect, pageNum))
    (hcoll : hasCollision rect.y0 (st.placedLines (pageNum - 1)) = true)
    (hstag : (staggerWhile (st.placedLines (pageNum - 1)) 8 rect.y0 true).2 = true)
    (hmax : (st.placedLines (pageNum - 1)).max = (m : WithBot ℤ)) :
    (placeScoreNearAnchor doc anchorText scoreText pages st).success = true ∧
    (placeScoreNearAnchor doc anchorText scoreText pages st).finalY =
      some (m + yTolerance * 3) ∧
    (∀ p ∈ st.placedLines (pageNum - 1), p < m + yTolerance * 3) ∧
    DrawCmd.text pageNum
      (max (rect.x0 + criterionScoreOffsetX) 50, m + yTolerance * 3 + criterionScoreOffsetY)
      scoreText criterionScoreFontsize ∈
      (placeScoreNearAnchor doc anchorText scoreText pages st).st.cmds := by
  have hne : st.placedLines (pageNum - 1) ≠ ∅ := by
    intro hcon
    rw [hcon, Finset.max_empty] at hmax
    exact absurd hmax (by simp)
  have hfy : computeFinalY rect.y0 (st.placedLines (pageNum - 1)) = m + yTolerance * 3 := by
    simp only [computeFinalY]
    rw [if_pos hcoll, if_pos hstag, if_pos hne, hmax]
    rfl
  have he : ¬(evidenceCleanOf anchorText = "") := by
    intro hcon
    rw [hcon] at hres
    exact Option.noConfusion ((by rfl : resolveAnchorRect doc "" pages st.marks true = none)
      ▸ hres)
  have hbelow : ∀ p ∈ st.placedLines (pageNum - 1), p < m + yTolerance * 3 := by
    intro p hp
    have hle := Finset.le_max hp
    rw [hmax] at hle
    have hpm : p ≤ m := by exact_mod_cast hle
    have h6 : (yTolerance : ℤ) = 6 := rfl
    omega
  unfold placeScoreNearAnchor
  rw [if_neg he, hres]
  refine ⟨rfl, ?_, hbelow, ?_⟩
  · show some (computeFinalY rect.y0 (st.placedLines (pageNum - 1))) = _
    rw [hfy]
  · show DrawCmd.text pageNum
      (max (rect.x0 + criterionScoreOffsetX) 50, m + yTolerance * 3 + criterionScoreOffsetY)
      scoreText criterionScoreFontsize ∈
      st.cmds ++ [DrawCmd.line pageNum (rect.x0, rect.y1 + 2)
        (min (rect.x1 + 15) ((doc (pageNum - 1)).width - 50), rect.y1 + 2),
        DrawCmd.text pageNum
          (max (rect.x0 + criterionScoreOffsetX) 50,
            computeFinalY rect.y0 (st.placedLines (pageNum - 1)) + criterionScoreOffsetY)
          scoreText criterionScoreFontsize]
    rw [hfy]
    simp

theorem c5_fallback_below_lowest_witness :
    (placeScoreNearAnchor doc5 "delta epsilon zeta" "1" [1] stC5).success = true ∧
    (placeScoreNearAnchor doc5 "delta epsilon zeta" "1" [1] stC5).finalY =
      some ((272 : ℤ) + yTolerance * 3) ∧
    (∀ p ∈ stC5.placedLines (1 - 1), p < (272 : ℤ) + yTolerance * 3) ∧
    DrawCmd.text 1
      (max (rC5.x0 + criterionScoreOffsetX) 50, (272 : ℤ) + yTolerance * 3 + criterionScoreOffsetY)
      "1" criterionScoreFontsize ∈
      (placeScoreNearAnchor doc5 "delta epsilon zeta" "1" [1] stC5).st.cmds :=
  c5_fallback_below_lowest doc5 "delta epsilon zeta" "1" [1] stC5 rC5 1 272
    (by decide) (by decide) (by decide) (by decide)

/-- C1 counterexample: evidence with no extractable number whose exact
and cleaned text occur on no allowed page can still resolve — the
word-cluster strategy finds the three evidence words on one line and
returns their unioned rectangle instead of `(None, None)`. -/
theorem c1_counterexample :
    extractNumberFromText "alpha beta gamma" = none ∧
    page1.searchFor "alpha beta gamma" = [] ∧
    cleanAnchorText "alpha beta gamma" maxAnchorWords = some "alpha beta gamma" ∧
    resolveAnchorRect doc1 "alpha beta gamma" [1] ∅ true =
      some (⟨72, 300, 190, 312⟩, 1) := by
  decide

/-- When too few significant evidence words are fuzzily found on the
page, the word-cluster strategy neither returns nor updates the
fallback. -/
theorem strategy4_skip (page : Page) (pageNum : ℕ) (anchorText : String)
    (marks : Finset (ℕ × ℤ)) (skip : Bool) (best : Option (Rect × ℕ))
    (h4 : (rectsByWordOf page anchorText).length <
      max 2 (((pySplitWS anchorText).take maxAnchorWords).length - 2)) :
    strategy4 page pageNum anchorText marks skip best = Sum.inr best := by
  simp only [strategy4]
  rw [if_neg (fun hcon => absurd hcon.2 (Nat.not_le.mpr h4))]

theorem strategy1_skip (page : Page) (pageNum : ℕ) (anchorText : String)
    (marks : Finset (ℕ × ℤ)) (skip : Bool)
    (h1 : page.searchFor anchorText = []) :
    strategy1 page pageNum anchorText marks skip = none := by
  unfold strategy1
  rw [h1]
  rfl

theorem strategy2_skip (page : Page) (pageNum : ℕ) (anchorText : String)
    (marks : Finset (ℕ × ℤ)) (skip : Bool)
    (h2 : ∀ cp, cleanAnchorText anchorText maxAnchorWords = some cp →
      page.searchFor cp = []) :
    strategy2 page pageNum anchorText marks skip = none := by
  unfold strategy2
  rcases hcp : cleanAnchorText anchorText maxAnchorWords with _ | cp
  · rfl
  · dsimp only
    by_cases hg : cp ≠ "" ∧ cp ≠ anchorText
    · rw [if_pos hg, h2 cp hcp]
      rfl
    · rw [if_neg hg]

theorem strategy3_skip (page : Page) (pageNum : ℕ) (anchorText : String)
    (marks : Finset (ℕ × ℤ)) (skip : Bool)
    (h3 : numTruthy (extractNumberFromText anchorText) = false) :
    strategy3 page pageNum anchorText marks skip = none := by
  simp only [strategy3]
  rw [h3]
  rfl

theorem strategy5_skip (page : Page) (pageNum : ℕ) (anchorText : String)
    (marks : Finset (ℕ × ℤ)) (skip : Bool) (best1 : Option (Rect × ℕ))
    (h3 : numTruthy (extractNumberFromText anchorText) = false) :
    strategy5 page pageNum anchorText marks skip best1 = best1 := by
  simp only [strategy5]
  rw [h3]
  rfl

/-- A page on which the exact phrase, the cleaned phrase, and the word
cluster all fail contributes nothing when the evidence has no number. -/
theorem resolvePage_skip (doc : Doc) (anchorText : String) (marks : Finset (ℕ × ℤ))
    (skip : Bool) (p : ℕ) (best : Option (Rect × ℕ))
    (h1 : (doc (p - 1)).searchFor anchorText = [])
    (h2 : ∀ cp, cleanAnchorText anchorText maxAnchorWords = some cp →
      (doc (p - 1)).searchFor cp = [])
    (h3 : numTruthy (extractNumberFromText anchorText) = false)
    (h4 : (rectsByWordOf (doc (p - 1)) anchorText).length <
      max 2 (((pySplitWS anchorText).take maxAnchorWords).length - 2)) :
    resolvePage doc anchorText marks skip p best = (none, best) := by
  simp only [resolvePage]
  rw [strategy1_skip (doc (p - 1)) p anchorText marks skip h1,
    strategy2_skip (doc (p - 1)) p anchorText marks skip h2,
    strategy3_skip (doc (p - 1)) p anchorText marks skip h3,
    strategy4_skip (doc (p - 1)) p anchorText marks skip best h4]
  show ((none : Option (Rect × ℕ)), strategy5 (doc (p - 1)) p anchorText marks skip best) =
    (none, best)
  rw [strategy5_skip (doc (p - 1)) p anchorText marks skip best h3]

theorem resolveLoop_skip (doc : Doc) (anchorText : String) (marks : Finset (ℕ × ℤ))
    (skip : Bool) :
    ∀ pages : List ℕ,
      (∀ p ∈ pages, (doc (p - 1)).searchFor anchorText = [] ∧
        (∀ cp, cleanAnchorText anchorText maxAnchorWords = some cp →
          (doc (p - 1)).searchFor cp = []) ∧
        (rectsByWordOf (doc (p - 1)) anchorText).length <
          max 2 (((pySplitWS anchorText).take maxAnchorWords).length - 2)) →
      numTruthy (extractNumberFromText anchorText) = false →
      resolveLoop doc anchorText marks skip pages none = none := by
  intro pages
  induction pages with
  | nil => intro _ _; rfl
  | cons p rest ih =>
    intro h h3
    have hp := h p (List.mem_cons_self p rest)
    show (match resolvePage doc anchorText marks skip p none with
      | (some res, _) => some res
      | (none, best1) => resolveLoop doc anchorText marks skip rest best1) = none
    rw [resolvePage_skip doc anchorText marks skip p none hp.1 hp.2.1 h3 hp.2.2]
    exact ih (fun q hq => h q (List.mem_cons_of_mem p hq)) h3

/-- C1 (amended): if the evidence has no extractable number, its exact
text and cleaned form occur on no allowed page, and on every allowed
page fewer than `max(2, n - 2)` of its significant words (first 6,
length > 2) are fuzzily found — so the word-cluster strategy also fails
— then `resolve_anchor_rect` returns `(None, None)`. -/
theorem c1_unresolvable_when_all_strategies_fail (doc : Doc) (anchorText : String)
    (pages : List ℕ) (marks : Finset (ℕ × ℤ)) (skip : Bool)
    (hnum : numTruthy (extractNumberFromText anchorText) = false)
    (hexact : ∀ p ∈ pages, (doc (p - 1)).searchFor anchorText = [])
    (hclean : ∀ p ∈ pages, ∀ cp, cleanAnchorText anchorText maxAnchorWords = some cp →
      (doc (p - 1)).searchFor cp = [])
    (hcluster : ∀ p ∈ pages, (rectsByWordOf (doc (p - 1)) anchorText).length <
      max 2 (((pySplitWS anchorText).take maxAnchorWords).length - 2)) :
    resolveAnchorRect doc anchorText pages marks skip = none := by
  unfold resolveAnchorRect
  by_cases he : anchorText = ""
  · rw [if_pos he]
  · rw [if_neg he]
    exact resolveLoop_skip doc anchorText marks skip pages
      (fun p hp => ⟨hexact p hp, hclean p hp, hcluster p hp⟩) hnum

theorem c1_unresolvable_witness :
    numTruthy (extractNumberFromText "alpha beta gamma") = false ∧
    resolveAnchorRect docE "alpha beta gamma" [1] ∅ true = none :=
  ⟨by decide,
    c1_unresolvable_when_all_strategies_fail docE "alpha beta gamma" [1] ∅ true
      (by decide)
      (fun _ _ => rfl)
      (fun _ _ _ _ => rfl)
      (fun p _ =>
        (by decide : (rectsByWordOf pageE "alpha beta gamma").length <
          max 2 (((pySplitWS "alpha beta gamma").take maxAnchorWords).length - 2)))⟩
